import Mathlib

set_option maxRecDepth 8000

/-!
Shallow embedding of `istio-gorm-tracing.go` (package `istiogormtracing`),
a gorm plugin that creates one opentracing span per database operation,
parented to the B3 trace context carried in the process-wide header slot `H`.

Modelling conventions:
- The global `http.Header` variable `H` is passed explicitly to the hooks as a
  `Carrier` argument (the value the global slot holds when the hook runs);
  the event system `step`/`run` below restores the shared-slot semantics.
- Random span/trace identifier generation and the current clock are passed as
  explicit `Nat` arguments (`freshTraceID`, `freshSpanID`, `now`).
- `*gorm.DB` pointers that may be nil become `Option DB`; the nil checks of
  the Go code become the corresponding `match`es.
- The zipkin B3 propagator and the opentracing span factory live in third-party
  libraries, not in this repository; they are modelled from the spec (§4.1,
  §4.2) and marked as such.
-/

/-- B3 trace context decoded from carrier headers (spec §3 `TraceContext`):
trace identifier, span id, optional parent span id, optional sampling flag. -/
structure TraceContext where
  traceID : Nat
  spanID : Nat
  parentSpanID : Option Nat
  sampled : Option Bool
deriving DecidableEq

/-- A propagation carrier: header-like key/value pairs (`http.Header`). -/
abbrev Carrier := List (String × String)

/-- Value of one hexadecimal digit, or `none` for a non-hex character. -/
def hexDigit (c : Char) : Option Nat :=
  if '0' ≤ c ∧ c ≤ '9' then some (c.toNat - Char.toNat '0')
  else if 'a' ≤ c ∧ c ≤ 'f' then some (c.toNat - Char.toNat 'a' + 10)
  else if 'A' ≤ c ∧ c ≤ 'F' then some (c.toNat - Char.toNat 'A' + 10)
  else none

/-- Fold of `hexDigit` over a character list, `none` on the first bad digit. -/
def parseHexList : List Char → Option Nat → Option Nat
  | [], acc => acc
  | c :: cs, acc =>
    match acc, hexDigit c with
    | some a, some d => parseHexList cs (some (a * 16 + d))
    | _, _ => none

/-- Parse a non-empty hexadecimal string, `none` when empty or malformed. -/
def parseHex (s : String) : Option Nat :=
  if s.isEmpty then none else parseHexList s.toList (some 0)

/-- Sampling flag read from the `x-b3-sampled` header. -/
def sampledOf (c : Carrier) : Option Bool :=
  match c.lookup "x-b3-sampled" with
  | some "1" => some true
  | some "0" => some false
  | _ => none

/-- Modelled from the spec: `zipkin.NewZipkinB3HTTPHeaderPropagator().Extract`
is library code not in this repository; per §4.1 it reads the fixed B3 keys
(trace id, span id, parent span id, sampled flag) and degrades to the empty
result on malformed or partially-present values instead of failing. -/
def extract (c : Carrier) : Option TraceContext :=
  match c.lookup "x-b3-traceid", c.lookup "x-b3-spanid" with
  | some tid, some sid =>
    match parseHex tid, parseHex sid with
    | some t, some s =>
      match c.lookup "x-b3-parentspanid" with
      | some pid =>
        match parseHex pid with
        | some p => some ⟨t, s, some p, sampledOf c⟩
        | none => none
      | none => some ⟨t, s, none, sampledOf c⟩
    | _, _ => none
  | _, _ => none

/-- A span (spec §3): one database operation's execution record. `finishCount`
counts `Finish` calls so that the finished-exactly-once invariant is visible. -/
structure Span where
  traceID : Nat
  spanID : Nat
  parentSpanID : Option Nat
  operationName : String
  startTime : Nat
  endTime : Option Nat
  logs : List (String × String)
  finishCount : Nat
deriving DecidableEq

/-- Modelled from the spec: `opentracing.StartSpanFromContext` with
`opentracing.ChildOf spanCtx` is library code not in this repository; per §4.2
a present parent context yields a child span whose trace identifier equals the
parent's and whose parent-span-id equals the parent's span id, while an absent
context yields a fresh root span. -/
def startSpan (parent : Option TraceContext) (op : String)
    (freshTraceID freshSpanID now : Nat) : Span :=
  match parent with
  | some tc => ⟨tc.traceID, freshSpanID, some tc.spanID, op, now, none, [], 0⟩
  | none => ⟨freshTraceID, freshSpanID, none, op, now, none, [], 0⟩

/-- `span.LogFields(opentracinglog.String k v)`: append one key/value field. -/
def addLog (s : Span) (k v : String) : Span :=
  { s with logs := s.logs ++ [(k, v)] }

/-- `span.Finish()`: set the end time and count the finish. -/
def finishSpan (s : Span) (now : Nat) : Span :=
  { s with endTime := some now, finishCount := s.finishCount + 1 }

/-- A value stored in gorm's per-statement instance store: a span, a nil
interface, or a value of some other type (the Go store is untyped). -/
inductive InstVal where
  | spanVal (s : Span)
  | nilVal
  | otherVal (tag : String)
deriving DecidableEq

/-- The parts of `gorm.Statement` the plugin reads. `hasContext` is whether
`db.Statement.Context` is non-nil; `sql` is `db.Statement.SQL.String()`;
`vars` is `db.Statement.Vars`; `table` is `db.Statement.Table`. -/
structure Statement where
  hasContext : Bool
  sql : String
  vars : List String
  table : String
deriving DecidableEq

/-- The parts of `*gorm.DB` the plugin touches: the statement (nil-able), the
operation's error, the dialector's `Explain`, the per-statement instance
store (`InstanceSet`/`InstanceGet`), and the logger's emitted error lines. -/
structure DB where
  statement : Option Statement
  error : Option String
  explain : String → List String → String
  instSettings : List (String × InstVal)
  loggedErrors : List String

/-- The instance-store key `spankey = "istio-gorm-tracing"`. -/
def spankey : String := "istio-gorm-tracing"

def _opCreate : String := "create"

def _opUpdate : String := "update"

def _opQuery : String := "query"

def _opDelete : String := "delete"

def _opRow : String := "row"

def _opRaw : String := "raw"

/-- The six operation kinds registered by `Initialize`. -/
def opKinds : List String := [_opCreate, _opUpdate, _opQuery, _opDelete, _opRow, _opRaw]

/-- The diagnostic `db.Logger.Error` emits when the statement or its context
is unavailable. -/
def noCtxMsg : String := "未定义 db.Statement 或 db.Statement.Context"

/-- `db.InstanceSet k v` (newest binding shadows older ones, as a pointer
overwrite would). -/
def instanceSet (db : DB) (k : String) (v : InstVal) : DB :=
  { db with instSettings := (k, v) :: db.instSettings }

/-- `db.InstanceGet k`: `none` plays the role of `isExist = false`. -/
def instanceGet (db : DB) (k : String) : Option InstVal :=
  db.instSettings.lookup k

/-- `db.Logger.Error(...)`: record one diagnostic line. -/
def logDiag (db : DB) (msg : String) : DB :=
  { db with loggedErrors := msg :: db.loggedErrors }

/-- `_injectBefore(db, op)` from the source: nil `db` returns immediately;
missing statement or context logs a diagnostic and returns; otherwise the B3
context is extracted from the carrier (the global `H` at call time), a span is
started as its child (or as a root), and stored under `spankey`. -/
def _injectBefore (db : Option DB) (op : String) (h : Carrier)
    (freshTraceID freshSpanID now : Nat) : Option DB :=
  match db with
  | none => none
  | some db =>
    match db.statement with
    | none => some (logDiag db noCtxMsg)
    | some st =>
      if st.hasContext = false then some (logDiag db noCtxMsg)
      else
        let spanCtx := extract h
        let span := startSpan spanCtx op freshTraceID freshSpanID now
        some (instanceSet db spankey (InstVal.spanVal span))

/-- `after(db)` from the source, shared by all six operation kinds: nil `db`
returns immediately; missing statement or context logs a diagnostic and
returns; a missing, nil or non-span stored value is a no-op; otherwise the
span is annotated (error when present, then `sql`, `table`, `query`,
`bindings`) and finished (the deferred `Finish` runs after the `LogFields`).
Returns the updated `db` and the span handed to the reporter, if any. -/
def after (db : Option DB) (now : Nat) : Option DB × Option Span :=
  match db with
  | none => (none, none)
  | some db =>
    match db.statement with
    | none => (some (logDiag db noCtxMsg), none)
    | some st =>
      if st.hasContext = false then (some (logDiag db noCtxMsg), none)
      else
        match instanceGet db spankey with
        | none => (some db, none)
        | some InstVal.nilVal => (some db, none)
        | some (InstVal.otherVal _) => (some db, none)
        | some (InstVal.spanVal sp0) =>
          let sp1 := match db.error with
            | some e => addLog sp0 "error" e
            | none => sp0
          let sp2 := addLog sp1 "sql" (db.explain st.sql st.vars)
          let sp3 := addLog sp2 "table" st.table
          let sp4 := addLog sp3 "query" st.sql
          let sp5 := addLog sp4 "bindings" st.sql
          let fin := finishSpan sp5 now
          (some (instanceSet db spankey (InstVal.spanVal fin)), some fin)

def beforeCreate (db : Option DB) (h : Carrier) (ft fs now : Nat) : Option DB :=
  _injectBefore db _opCreate h ft fs now

def beforeUpdate (db : Option DB) (h : Carrier) (ft fs now : Nat) : Option DB :=
  _injectBefore db _opUpdate h ft fs now

def beforeQuery (db : Option DB) (h : Carrier) (ft fs now : Nat) : Option DB :=
  _injectBefore db _opQuery h ft fs now

def beforeDelete (db : Option DB) (h : Carrier) (ft fs now : Nat) : Option DB :=
  _injectBefore db _opDelete h ft fs now

def beforeRow (db : Option DB) (h : Carrier) (ft fs now : Nat) : Option DB :=
  _injectBefore db _opRow h ft fs now

def beforeRaw (db : Option DB) (h : Carrier) (ft fs now : Nat) : Option DB :=
  _injectBefore db _opRaw h ft fs now

/-- The plugin struct `IstioGormTracing`. -/
structure IstioGormTracing where
  serviceName : String
  collectorEndpoint : String
deriving DecidableEq

/-- The jaeger `config.Configuration` literal built by `bootTracerBasedJaeger`. -/
structure JaegerConfig where
  samplerType : String
  samplerParam : Nat
  serviceName : String
  logSpans : Bool
  collectorEndpoint : String
deriving DecidableEq

/-- `jaeger.SamplerTypeConst`. -/
def jaegerSamplerTypeConst : String := "const"

/-- The configuration `bootTracerBasedJaeger` passes to `NewTracer`. -/
def configOf (i : IstioGormTracing) : JaegerConfig :=
  ⟨jaegerSamplerTypeConst, 1, i.serviceName, true, i.collectorEndpoint⟩

/-- Outcome of startup: `os.Exit(code)` after logging `logMsg`, or a booted
process whose global tracer was set. -/
inductive BootResult where
  | exited (code : Nat) (logMsg : String)
  | booted (tracerSetGlobal : Bool)
deriving DecidableEq

/-- The `log.Printf` line emitted when tracer construction fails. -/
def bootFailMsg (e : String) : String :=
  "jaeger tracer 插件初始化失败, 错误原因: " ++ e

/-- `bootTracerBasedJaeger` from the source: build the config, call
`NewTracer` (external; its outcome is the `newTracer` argument), and on error
log the failure and `os.Exit(1)`; on success set the global tracer. -/
def bootTracerBasedJaeger (i : IstioGormTracing)
    (newTracer : JaegerConfig → Except String Unit) : BootResult :=
  match newTracer (configOf i) with
  | Except.error e => BootResult.exited 1 (bootFailMsg e)
  | Except.ok _ => BootResult.booted true

/-- `NewDefault(svcName, collectorEndpoint)`: build the plugin and boot the
tracer. The boot outcome is returned alongside the plugin (in Go, an
`exited` outcome means the call never returns). -/
def NewDefault (svcName collectorEndpoint : String)
    (newTracer : JaegerConfig → Except String Unit) : BootResult × IstioGormTracing :=
  let i : IstioGormTracing := ⟨svcName, collectorEndpoint⟩
  (bootTracerBasedJaeger i newTracer, i)

/-- World state for interleaved executions: the process-wide header slot `H`,
one `*gorm.DB` per in-flight operation, and the spans handed to the reporter
tagged with the operation index that produced them. -/
structure World where
  h : Carrier
  dbs : List (Option DB)
  reported : List (Nat × Span)

/-- One scheduler event: a request handler storing its headers into the
global slot `H`, or a before/after hook firing for operation `i`. -/
inductive Ev where
  | setH (c : Carrier)
  | beforeEv (i : Nat) (op : String) (ft fs t : Nat)
  | afterEv (i : Nat) (t : Nat)

/-- Interleaving semantics: `setH` overwrites the shared slot; `beforeEv i`
runs `_injectBefore` for operation `i` against whatever `H` currently holds;
`afterEv i` runs `after` for operation `i` and collects the reported span. -/
def step (w : World) : Ev → World
  | Ev.setH c => { w with h := c }
  | Ev.beforeEv i op ft fs t =>
    { w with dbs := w.dbs.set i (_injectBefore (w.dbs.getD i none) op w.h ft fs t) }
  | Ev.afterEv i t =>
    let r := after (w.dbs.getD i none) t
    { w with dbs := w.dbs.set i r.1,
             reported := match r.2 with
               | some s => w.reported ++ [(i, s)]
               | none => w.reported }

/-- Run a whole interleaving. -/
def run (w : World) (es : List Ev) : World := es.foldl step w

/-! ## Concrete fixtures used by witnesses and counterexamples -/

/-- A well-formed statement: context present, parameterized query on `users`. -/
def stEx : Statement :=
  { hasContext := true, sql := "SELECT * FROM users WHERE id = ?",
    vars := ["7"], table := "users" }

/-- A healthy `*gorm.DB` before any hook ran. -/
def dbEx : DB :=
  { statement := some stEx, error := none,
    explain := fun s _ => s, instSettings := [], loggedErrors := [] }

/-- A well-formed inbound B3 carrier. -/
def hEx : Carrier :=
  [("x-b3-traceid", "1a2b"), ("x-b3-spanid", "00ff"), ("x-b3-sampled", "1")]

/-- A malformed carrier: non-hex trace id field. -/
def hBad : Carrier :=
  [("x-b3-traceid", "zznothex"), ("x-b3-spanid", "00ff")]

example : extract hEx = some ⟨6699, 255, none, some true⟩ := by decide

example : extract hBad = none := by decide

example : extract [] = none := by decide

/-! ## Claims -/

/-- C1: for every database operation whose before-hook runs with a present,
well-formed inbound trace context in the carrier, the span created for that
operation has a trace identifier equal to the inbound trace identifier and a
parent-span-id equal to the inbound span id. -/
theorem injectBefore_child_of_inbound_context
    (db : DB) (st : Statement) (op : String) (h : Carrier) (tc : TraceContext)
    (ft fs now : Nat)
    (hst : db.statement = some st) (hctx : st.hasContext = true)
    (hex : extract h = some tc) :
    ∃ db' s, _injectBefore (some db) op h ft fs now = some db' ∧
      instanceGet db' spankey = some (InstVal.spanVal s) ∧
      s.traceID = tc.traceID ∧ s.parentSpanID = some tc.spanID ∧
      s.operationName = op ∧ s.startTime = now := by
  refine ⟨instanceSet db spankey (InstVal.spanVal (startSpan (some tc) op ft fs now)),
    startSpan (some tc) op ft fs now, ?_, ?_, ?_, ?_, ?_, ?_⟩
  · simp [_injectBefore, hst, hctx, hex]
  · simp [instanceGet, instanceSet, List.lookup]
  · simp [startSpan]
  · simp [startSpan]
  · simp [startSpan]
  · simp [startSpan]

/-- Witness for C1 at the concrete carrier `hEx`. -/
theorem injectBefore_child_of_inbound_context_witness :
    ∃ db' s, _injectBefore (some dbEx) _opQuery hEx 31 32 5 = some db' ∧
      instanceGet db' spankey = some (InstVal.spanVal s) ∧
      s.traceID = 6699 ∧ s.parentSpanID = some 255 ∧
      s.operationName = _opQuery ∧ s.startTime = 5 :=
  injectBefore_child_of_inbound_context dbEx stEx _opQuery hEx
    ⟨6699, 255, none, some true⟩ 31 32 5 rfl rfl (by decide)

/-- C2: for every carrier whose B3 fields are malformed, partially present,
or entirely absent (extraction yields no context), the before-hook raises no
error visible to the caller — the operation's error slot and the diagnostics
log are untouched — and still stores a valid span starting a fresh root
trace. -/
theorem injectBefore_malformed_carrier_fresh_root
    (db : DB) (st : Statement) (op : String) (h : Carrier) (ft fs now : Nat)
    (hst : db.statement = some st) (hctx : st.hasContext = true)
    (hex : extract h = none) :
    ∃ db' s, _injectBefore (some db) op h ft fs now = some db' ∧
      instanceGet db' spankey = some (InstVal.spanVal s) ∧
      s.traceID = ft ∧ s.spanID = fs ∧ s.parentSpanID = none ∧
      s.operationName = op ∧ s.startTime = now ∧ s.endTime = none ∧
      s.finishCount = 0 ∧
      db'.error = db.error ∧ db'.loggedErrors = db.loggedErrors := by
  refine ⟨instanceSet db spankey (InstVal.spanVal (startSpan none op ft fs now)),
    startSpan none op ft fs now, ?_, ?_, rfl, rfl, rfl, rfl, rfl, rfl, rfl, rfl, rfl⟩
  · simp [_injectBefore, hst, hctx, hex]
  · simp [instanceGet, instanceSet, List.lookup]

/-- Witness for C2 at the concrete malformed carrier `hBad`. -/
theorem injectBefore_malformed_carrier_fresh_root_witness :
    ∃ db' s, _injectBefore (some dbEx) _opCreate hBad 41 42 9 = some db' ∧
      instanceGet db' spankey = some (InstVal.spanVal s) ∧
      s.traceID = 41 ∧ s.spanID = 42 ∧ s.parentSpanID = none ∧
      s.operationName = _opCreate ∧ s.startTime = 9 ∧ s.endTime = none ∧
      s.finishCount = 0 ∧
      db'.error = dbEx.error ∧ db'.loggedErrors = dbEx.loggedErrors :=
  injectBefore_malformed_carrier_fresh_root dbEx stEx _opCreate hBad 41 42 9
    rfl rfl (by decide)

/-- C10: for a nil database handle, both the before-hook and the shared
after-hook return immediately: no span is created or reported, nothing is
logged or annotated, and the functions are total (no panic). -/
theorem nil_db_hooks_noop (op : String) (h : Carrier) (ft fs t t' : Nat) :
    _injectBefore none op h ft fs t = none ∧ after none t' = (none, none) :=
  ⟨rfl, rfl⟩

/-! ## Helper lemmas on the good path of `after` -/

/-- The annotation pass of `after` (error when present, then `sql`, `table`,
`query`, `bindings`), factored out for the lemmas below. -/
def annotateSpan (db : DB) (st : Statement) (sp : Span) : Span :=
  let sp1 := match db.error with
    | some e => addLog sp "error" e
    | none => sp
  let sp2 := addLog sp1 "sql" (db.explain st.sql st.vars)
  let sp3 := addLog sp2 "table" st.table
  let sp4 := addLog sp3 "query" st.sql
  addLog sp4 "bindings" st.sql

theorem annotateSpan_eq (db : DB) (st : Statement) (sp : Span) :
    annotateSpan db st sp =
      { sp with logs := sp.logs ++
          ((match db.error with | some e => [("error", e)] | none => []) ++
           [("sql", db.explain st.sql st.vars), ("table", st.table),
            ("query", st.sql), ("bindings", st.sql)]) } := by
  cases h : db.error <;> simp [annotateSpan, addLog, h]

/-- On a healthy `db` with a span stored under `spankey`, `after` annotates
and finishes that span, restores it and reports it. -/
theorem after_good (db : DB) (st : Statement) (sp : Span) (now : Nat)
    (hst : db.statement = some st) (hctx : st.hasContext = true)
    (hsp : instanceGet db spankey = some (InstVal.spanVal sp)) :
    after (some db) now =
      (some (instanceSet db spankey
          (InstVal.spanVal (finishSpan (annotateSpan db st sp) now))),
       some (finishSpan (annotateSpan db st sp) now)) := by
  cases herr : db.error <;> simp [after, hst, hctx, hsp, annotateSpan, herr]

theorem instanceGet_instanceSet (db : DB) (k : String) (v : InstVal) :
    instanceGet (instanceSet db k v) k = some v := by
  simp [instanceGet, instanceSet, List.lookup]

/-- C3: when the operation failed, the after-hook records the error as an
annotation on the reported span, and the operation's own error and statement
are left unchanged, so the caller observes the original outcome exactly. -/
theorem after_records_error_preserves_outcome
    (db : DB) (st : Statement) (sp : Span) (e : String) (now : Nat)
    (hst : db.statement = some st) (hctx : st.hasContext = true)
    (hsp : instanceGet db spankey = some (InstVal.spanVal sp))
    (herr : db.error = some e) :
    ∃ db' fin, after (some db) now = (some db', some fin) ∧
      ("error", e) ∈ fin.logs ∧
      db'.error = db.error ∧ db'.statement = db.statement := by
  refine ⟨_, _, after_good db st sp now hst hctx hsp, ?_, rfl, rfl⟩
  simp [annotateSpan_eq, finishSpan, herr]

/-- A span already stored under `spankey`, for fixtures exercising `after`. -/
def spStored : Span :=
  { traceID := 6699, spanID := 32, parentSpanID := some 255,
    operationName := _opCreate, startTime := 5, endTime := none,
    logs := [], finishCount := 0 }

/-- A `db` whose operation failed with `duplicate key`, span stored. -/
def dbErr : DB :=
  { statement := some stEx, error := some "duplicate key",
    explain := fun s _ => s,
    instSettings := [(spankey, InstVal.spanVal spStored)], loggedErrors := [] }

/-- Witness for C3 at a concrete failed operation. -/
theorem after_records_error_preserves_outcome_witness :
    ∃ db' fin, after (some dbErr) 11 = (some db', some fin) ∧
      ("error", "duplicate key") ∈ fin.logs ∧
      db'.error = dbErr.error ∧ db'.statement = dbErr.statement :=
  after_records_error_preserves_outcome dbErr stEx spStored "duplicate key" 11
    rfl rfl (by decide) rfl

/-- C4: a before-hook that successfully stores a span, paired with the
matching after-hook, finishes exactly that span exactly once (`finishCount`
ends at `1`, never `0`, never `2`), with end time `t1 ≥ t0`, the start time. -/
theorem before_then_after_finishes_exactly_once
    (db : DB) (st : Statement) (op : String) (h : Carrier) (ft fs t0 t1 : Nat)
    (hst : db.statement = some st) (hctx : st.hasContext = true)
    (hle : t0 ≤ t1) :
    ∃ db1 db2 fin, _injectBefore (some db) op h ft fs t0 = some db1 ∧
      after (some db1) t1 = (some db2, some fin) ∧
      fin.finishCount = 1 ∧ fin.spanID = fs ∧ fin.operationName = op ∧
      fin.startTime = t0 ∧ fin.endTime = some t1 ∧ t0 ≤ t1 := by
  have hb : _injectBefore (some db) op h ft fs t0 =
      some (instanceSet db spankey
        (InstVal.spanVal (startSpan (extract h) op ft fs t0))) := by
    simp [_injectBefore, hst, hctx]
  set db1 := instanceSet db spankey
    (InstVal.spanVal (startSpan (extract h) op ft fs t0)) with hdb1
  have hst1 : db1.statement = some st := hst
  have hsp1 : instanceGet db1 spankey =
      some (InstVal.spanVal (startSpan (extract h) op ft fs t0)) :=
    instanceGet_instanceSet db spankey _
  refine ⟨db1, _, _, hb, after_good db1 st _ t1 hst1 hctx hsp1, ?_, ?_, ?_, ?_, ?_, hle⟩
  all_goals cases hx : extract h <;>
    simp [annotateSpan_eq, finishSpan, startSpan, hx]

/-- Witness for C4 at the concrete carrier `hEx`. -/
theorem before_then_after_finishes_exactly_once_witness :
    ∃ db1 db2 fin, _injectBefore (some dbEx) _opUpdate hEx 51 52 3 = some db1 ∧
      after (some db1) 8 = (some db2, some fin) ∧
      fin.finishCount = 1 ∧ fin.spanID = 52 ∧ fin.operationName = _opUpdate ∧
      fin.startTime = 3 ∧ fin.endTime = some 8 ∧ 3 ≤ 8 :=
  before_then_after_finishes_exactly_once dbEx stEx _opUpdate hEx 51 52 3 8
    rfl rfl (by decide)

/-- C5: for every operation kind, when the statement or its context is
unavailable at the before-hook, the hook logs the diagnostic and stores no
span, and the matching after-hook reports no span and leaves the instance
store unchanged. -/
theorem before_missing_context_diagnostic_after_noop
    (db : DB) (op : String) (h : Carrier) (ft fs t0 t1 : Nat)
    (_hop : op ∈ opKinds)
    (hctx : db.statement = none ∨
      ∃ st, db.statement = some st ∧ st.hasContext = false) :
    ∃ db1, _injectBefore (some db) op h ft fs t0 = some db1 ∧
      db1.instSettings = db.instSettings ∧
      db1.loggedErrors = noCtxMsg :: db.loggedErrors ∧
      (after (some db1) t1).2 = none ∧
      ∃ db2, (after (some db1) t1).1 = some db2 ∧
        db2.instSettings = db.instSettings := by
  rcases hctx with hctx | ⟨st, hst, hfalse⟩
  · exact ⟨logDiag db noCtxMsg,
      by simp [_injectBefore, hctx],
      rfl, rfl,
      by simp [after, logDiag, hctx],
      logDiag (logDiag db noCtxMsg) noCtxMsg,
      by simp [after, logDiag, hctx], rfl⟩
  · exact ⟨logDiag db noCtxMsg,
      by simp [_injectBefore, hst, hfalse],
      rfl, rfl,
      by simp [after, logDiag, hst, hfalse],
      logDiag (logDiag db noCtxMsg) noCtxMsg,
      by simp [after, logDiag, hst, hfalse], rfl⟩

/-- A `db` whose statement is nil. -/
def dbNoStmt : DB :=
  { statement := none, error := none, explain := fun s _ => s,
    instSettings := [], loggedErrors := [] }

/-- Witness for C5 at a nil statement and operation kind `row`. -/
theorem before_missing_context_diagnostic_after_noop_witness :
    ∃ db1, _injectBefore (some dbNoStmt) _opRow hEx 61 62 2 = some db1 ∧
      db1.instSettings = dbNoStmt.instSettings ∧
      db1.loggedErrors = noCtxMsg :: dbNoStmt.loggedErrors ∧
      (after (some db1) 4).2 = none ∧
      ∃ db2, (after (some db1) 4).1 = some db2 ∧
        db2.instSettings = dbNoStmt.instSettings :=
  before_missing_context_diagnostic_after_noop dbNoStmt _opRow hEx 61 62 2 4
    (by decide) (Or.inl rfl)

/-- C6: when the value stored under `spankey` is absent, nil, or not a span,
the after-hook is a no-op returning the `db` unchanged and reporting nothing;
the wrong-type case produces exactly the same result as the absent case. -/
theorem after_missing_or_wrong_type_noop
    (db : DB) (st : Statement) (now : Nat)
    (hst : db.statement = some st) (hctx : st.hasContext = true)
    (hv : instanceGet db spankey = none ∨
      instanceGet db spankey = some InstVal.nilVal ∨
      ∃ tag, instanceGet db spankey = some (InstVal.otherVal tag)) :
    after (some db) now = (some db, none) := by
  rcases hv with hv | hv | ⟨tag, hv⟩ <;> simp [after, hst, hctx, hv]

/-- A `db` whose stored `spankey` value has the wrong type. -/
def dbWrongType : DB :=
  { statement := some stEx, error := none, explain := fun s _ => s,
    instSettings := [(spankey, InstVal.otherVal "int")], loggedErrors := [] }

/-- Witness for C6 at a concrete wrong-type stored value. -/
theorem after_missing_or_wrong_type_noop_witness :
    after (some dbWrongType) 7 = (some dbWrongType, none) :=
  after_missing_or_wrong_type_noop dbWrongType stEx 7 rfl rfl
    (Or.inr (Or.inr ⟨"int", by decide⟩))

/-! ## C7: annotation schema -/

/-- A span stored for the C7 scenario. -/
def spC7 : Span :=
  { traceID := 9, spanID := 10, parentSpanID := none, operationName := _opQuery,
    startTime := 2, endTime := none, logs := [], finishCount := 0 }

/-- The C7 statement: one bound parameter whose resolved value is `42`. -/
def stC7 : Statement :=
  { hasContext := true, sql := "select ?", vars := ["42"], table := "users" }

/-- The C7 `db`: raw-echo dialector, span stored, no error. -/
def dbC7 : DB :=
  { statement := some stC7, error := none, explain := fun s _ => s,
    instSettings := [(spankey, InstVal.spanVal spC7)], loggedErrors := [] }

/-- The span `after` reports for `dbC7`. -/
def finC7 : Span :=
  { traceID := 9, spanID := 10, parentSpanID := none, operationName := _opQuery,
    startTime := 2, endTime := some 9,
    logs := [("sql", "select ?"), ("table", "users"),
             ("query", "select ?"), ("bindings", "select ?")],
    finishCount := 1 }

/-- C7 counterexample: the `bindings` annotation holds the raw statement text
`select ?`, not the resolved parameter values — indeed the resolved value
`42` appears in no annotation at all, refuting the claim that the span is
annotated with the resolved parameter values. -/
theorem after_bindings_hold_raw_sql_not_params_cex :
    (after (some dbC7) 9).2 = some finC7 ∧
    finC7.logs.lookup "bindings" = some "select ?" ∧
    stC7.vars = ["42"] ∧
    (∀ kv ∈ finC7.logs, kv.2 ≠ "42") := by decide

/-- C7 amended: the after-hook annotates the stored span with the
dialect-expanded SQL under `sql`, the table name under `table`, the raw
parameterized statement text under `query`, and the raw statement text again
(not the resolved parameter values) under `bindings`, preceded by the error
description when the operation reported an error. -/
theorem after_annotates_expanded_sql_table_raw_query_raw_bindings
    (db : DB) (st : Statement) (sp : Span) (now : Nat)
    (hst : db.statement = some st) (hctx : st.hasContext = true)
    (hsp : instanceGet db spankey = some (InstVal.spanVal sp)) :
    ∃ db' fin, after (some db) now = (some db', some fin) ∧
      fin.logs = sp.logs ++
        ((match db.error with | some e => [("error", e)] | none => []) ++
         [("sql", db.explain st.sql st.vars), ("table", st.table),
          ("query", st.sql), ("bindings", st.sql)]) := by
  refine ⟨_, _, after_good db st sp now hst hctx hsp, ?_⟩
  simp [annotateSpan_eq, finishSpan]

/-- Witness for the amended C7 at a concrete failed operation. -/
theorem after_annotates_expanded_sql_table_raw_query_raw_bindings_witness :
    ∃ db' fin, after (some dbErr) 11 = (some db', some fin) ∧
      fin.logs = [("error", "duplicate key"),
        ("sql", "SELECT * FROM users WHERE id = ?"), ("table", "users"),
        ("query", "SELECT * FROM users WHERE id = ?"),
        ("bindings", "SELECT * FROM users WHERE id = ?")] :=
  after_annotates_expanded_sql_table_raw_query_raw_bindings dbErr stEx spStored 11
    rfl rfl (by decide)

/-! ## C8: startup abort on tracer failure -/

/-- C8: if the tracer cannot be constructed, the initialization entry point
`NewDefault` ends in `os.Exit(1)` after logging the failure message. -/
theorem newDefault_aborts_on_tracer_failure
    (svc ep : String) (newTracer : JaegerConfig → Except String Unit) (e : String)
    (hf : newTracer (configOf ⟨svc, ep⟩) = Except.error e) :
    (NewDefault svc ep newTracer).1 = BootResult.exited 1 (bootFailMsg e) := by
  simp [NewDefault, bootTracerBasedJaeger, hf]

/-- Witness for C8 at a concrete failing tracer constructor. -/
theorem newDefault_aborts_on_tracer_failure_witness :
    (NewDefault "svc" "http://127.0.0.1:14268/api/traces"
        (fun _ => Except.error "connection refused")).1 =
      BootResult.exited 1 (bootFailMsg "connection refused") :=
  newDefault_aborts_on_tracer_failure "svc" "http://127.0.0.1:14268/api/traces"
    (fun _ => Except.error "connection refused") "connection refused" rfl

/-! ## C9: concurrency and the shared carrier slot -/

/-- Request A's inbound carrier: trace id `111` (273), span id `a1` (161). -/
def cA : Carrier := [("x-b3-traceid", "111"), ("x-b3-spanid", "a1")]

/-- Request B's inbound carrier: trace id `222` (546), span id `b2` (178). -/
def cB : Carrier := [("x-b3-traceid", "222"), ("x-b3-spanid", "b2")]

/-- Statement of the `i`-th concurrent operation. -/
def stFor (i : Nat) : Statement :=
  { hasContext := true, sql := "select ?", vars := [toString i],
    table := "t" ++ toString i }

/-- `db` of the `i`-th concurrent operation. -/
def dbFor (i : Nat) : DB :=
  { statement := some (stFor i), error := none, explain := fun s _ => s,
    instSettings := [], loggedErrors := [] }

/-- Initial world with 100 in-flight operations. -/
def w0 : World :=
  { h := [], dbs := (List.range 100).map (fun i => some (dbFor i)), reported := [] }

/-- An interleaving of 100 operations: request A publishes its carrier for
operation 0, request B then overwrites the shared slot with its own carrier,
and only afterwards do the 100 before/after hook pairs run. -/
def evs : List Ev :=
  [Ev.setH cA, Ev.setH cB] ++
  (List.range 100).map (fun i => Ev.beforeEv i "query" (1000 + i) (2000 + i) 0) ++
  (List.range 100).map (fun i => Ev.afterEv i 1)

set_option maxHeartbeats 1000000 in
/-- C9 counterexample: with 100 concurrently executing operations and
interleaved before/after calls, operation 0 — issued by request A, whose
carrier `cA` holds trace id 273 — ends up with a span whose trace identifier
is 546, request B's trace id, because the before-hook reads the process-wide
slot `H` that B overwrote: the span does not carry only its own parent
linkage. -/
theorem concurrent_ops_parent_linkage_cross_contaminated_cex :
    ((run w0 evs).reported.lookup 0).map Span.traceID = some 546 ∧
    extract cA = some ⟨273, 161, none, none⟩ ∧
    extract cB = some ⟨546, 178, none, none⟩ ∧
    (546 : Nat) ≠ 273 ∧
    (run w0 evs).reported.length = 100 := by decide

/-- C9 amended: each operation's span is annotated only from that operation's
own `db` — its own table, statement text, dialect expansion and error — with
no cross-contamination, but its parent linkage (trace identifier) is taken
from whatever the process-wide carrier slot `H` holds when its before-hook
runs, which under interleaved concurrent requests may be another request's
context. -/
theorem span_annotations_own_db_linkage_from_shared_slot
    (db : DB) (st : Statement) (op : String) (hB : Carrier) (ft fs t0 t1 : Nat)
    (hst : db.statement = some st) (hctx : st.hasContext = true) :
    ∃ db1 db2 fin, _injectBefore (some db) op hB ft fs t0 = some db1 ∧
      after (some db1) t1 = (some db2, some fin) ∧
      fin.logs.lookup "table" = some st.table ∧
      fin.logs.lookup "query" = some st.sql ∧
      fin.logs.lookup "sql" = some (db.explain st.sql st.vars) ∧
      (∀ e, db.error = some e → ("error", e) ∈ fin.logs) ∧
      (db.error = none → fin.logs.lookup "error" = none) ∧
      fin.traceID = (match extract hB with
        | some tc => tc.traceID
        | none => ft) := by
  have hb : _injectBefore (some db) op hB ft fs t0 =
      some (instanceSet db spankey
        (InstVal.spanVal (startSpan (extract hB) op ft fs t0))) := by
    simp [_injectBefore, hst, hctx]
  refine ⟨_, _, _, hb,
    after_good _ st _ t1 hst hctx (instanceGet_instanceSet db spankey _),
    ?_, ?_, ?_, ?_, ?_, ?_⟩
  all_goals cases herr : db.error <;> cases hx : extract hB <;>
    simp [annotateSpan_eq, finishSpan, startSpan, instanceSet, List.lookup,
      herr, hx]

/-- Witness for the amended C9: operation 0's hooks running while the shared
slot holds request B's carrier. -/
theorem span_annotations_own_db_linkage_from_shared_slot_witness :
    ∃ db1 db2 fin, _injectBefore (some (dbFor 0)) _opQuery cB 1000 2000 0 = some db1 ∧
      after (some db1) 1 = (some db2, some fin) ∧
      fin.logs.lookup "table" = some (stFor 0).table ∧
      fin.logs.lookup "query" = some (stFor 0).sql ∧
      fin.logs.lookup "sql" = some ((dbFor 0).explain (stFor 0).sql (stFor 0).vars) ∧
      (∀ e, (dbFor 0).error = some e → ("error", e) ∈ fin.logs) ∧
      ((dbFor 0).error = none → fin.logs.lookup "error" = none) ∧
      fin.traceID = 546 :=
  span_annotations_own_db_linkage_from_shared_slot (dbFor 0) (stFor 0) _opQuery cB
    1000 2000 0 1 rfl rfl
